import Mathlib

set_option maxRecDepth 4000

/-!
Shallow embedding of the nupo-chatbot content-sync and conversation core.

Conventions used throughout:
* JS timestamps (`Date.now()`, `new Date(...)`) are modelled as `Int`
  milliseconds since the epoch.
* Database tables are modelled as Lean lists of rows; `findFirst`,
  `deleteMany`, `createMany`, `update`, `upsert` are modelled as the
  corresponding list operations.
* JS strings are modelled as Lean `String`; `String.prototype.includes`
  is an infix (substring) test, and `toLowerCase`/`trim`/`substring`/
  `split`/`join` are modelled by the `js*`/`splitBy`/`joinSep` helpers
  below (all inputs of interest are ASCII).
-/

/-- Containment of one character list inside another (contiguous). -/
def listIsInfixOf (needle : List Char) : List Char → Bool
  | [] => needle.isEmpty
  | c :: rest => needle.isPrefixOf (c :: rest) || listIsInfixOf needle rest

/-- JS `haystack.includes(needle)`: substring containment. -/
def jsIncludes (haystack needle : String) : Bool :=
  listIsInfixOf needle.toList haystack.toList

/-- ASCII lowercase for one character (JS `toLowerCase` on the ASCII
inputs of interest). -/
def asciiLower (c : Char) : Char :=
  if 65 ≤ c.toNat && c.toNat ≤ 90 then Char.ofNat (c.toNat + 32) else c

/-- JS `s.toLowerCase()`. -/
def jsToLower (s : String) : String := String.mk (s.toList.map asciiLower)

/-- Whitespace class used for the `\s` regex escapes and for `trim` in the
source (the inputs of interest contain only ASCII whitespace). -/
def isJsWhitespace (c : Char) : Bool :=
  c == ' ' || c == '\t' || c == '\n' || c == '\r' || c == '\x0b' || c == '\x0c'

/-- JS `s.trim()`. -/
def jsTrim (s : String) : String :=
  String.mk (((s.toList.dropWhile isJsWhitespace).reverse.dropWhile isJsWhitespace).reverse)

/-- JS `s.substring(0, n)`. -/
def jsSubstring (s : String) (n : Nat) : String := String.mk (s.toList.take n)

/-- Split on a character class, as JS `split` with a one-class regex; runs
of separators produce empty pieces, which every caller filters away by a
minimum length. -/
def splitByAux (p : Char → Bool) : List Char → List Char → List String
  | acc, [] => [String.mk acc.reverse]
  | acc, c :: rest =>
    if p c then String.mk acc.reverse :: splitByAux p [] rest
    else splitByAux p (c :: acc) rest

/-- String wrapper for `splitByAux`. -/
def splitBy (p : Char → Bool) (s : String) : List String := splitByAux p [] s.toList

/-- JS `parts.join(sep)`. -/
def joinSep (sep : String) : List String → String
  | [] => ""
  | [x] => x
  | x :: y :: xs => x ++ sep ++ joinSep sep (y :: xs)

/-- Milliseconds in 24 hours. -/
def hours24Ms : Int := 24 * 60 * 60 * 1000

/-- Milliseconds in 23 hours. -/
def hours23Ms : Int := 23 * 60 * 60 * 1000

/-- One row of the `scraping_jobs` table
(migration 20250827090113_add_content_scraping). -/
structure ScrapingJob where
  id : Nat
  shopId : Nat
  jobType : String
  status : String
  progress : Nat
  itemsFound : Nat
  itemsProcessed : Nat
  errorMessage : Option String
  startedAt : Option Int
  completedAt : Option Int
  createdAt : Int
  deriving Repr, DecidableEq

/-- The `findFirst` query of `shouldAutoScrape` (auto-scraper.js:9-15):
most recent job with the given `shopId` and status `completed`,
ordered by `completedAt` descending. -/
def lastCompletedJob (jobs : List ScrapingJob) (shopId : Nat) : Option ScrapingJob :=
  (jobs.filter (fun j => j.shopId == shopId && j.status == "completed")).foldl
    (fun acc j =>
      match acc with
      | none => some j
      | some b => if j.completedAt.getD 0 > b.completedAt.getD 0 then some j else some b)
    none

/-- Core decision of `shouldAutoScrape` (auto-scraper.js:7-32) given the
result of the database query.  The query itself may throw, which the
function catches, returning `false`.  The JS comparison
`(now - completedAt) / 3600000 >= 24` over reals is equivalent to
`now - completedAt >= 24 * 3600000`. -/
def shouldAutoScrape (queryResult : Except String (Option ScrapingJob)) (now : Int) : Bool :=
  match queryResult with
  | .error _ => false
  | .ok none => true
  | .ok (some j) => decide (now - j.completedAt.getD 0 ≥ hours24Ms)

/-- The staleness decision of `shouldAutoScrape` applied to an in-memory
jobs table (the non-throwing path). -/
def shouldAutoScrapeDb (jobs : List ScrapingJob) (shopId : Nat) (now : Int) : Bool :=
  shouldAutoScrape (.ok (lastCompletedJob jobs shopId)) now

/-- The periodic (cron) staleness decision (api.cron.jsx:154-168):
look for any `completed` job whose `createdAt` lies within the last 23
hours; the shop is scraped again exactly when no such job exists. -/
def cronNeedsScrape (jobs : List ScrapingJob) (shopId : Nat) (now : Int) : Bool :=
  !(jobs.any (fun j =>
      j.shopId == shopId && j.status == "completed" &&
      decide (j.createdAt ≥ now - hours23Ms)))

/-- Modelled from the spec wording for the periodic trigger: the 23-hour
threshold measured from the most recent completed job's completion time
(the claim asserts the elapsed time is measured from completion). -/
def cronStaleSpec (jobs : List ScrapingJob) (shopId : Nat) (now : Int) : Bool :=
  match lastCompletedJob jobs shopId with
  | none => true
  | some j => decide (now - j.completedAt.getD 0 ≥ hours23Ms)

/-! ## Job lifecycle (JobCoordinator) -/

/-- The single-flight guard query used by both `triggerAutoScrape`
(auto-scraper.js:40-45) and the `start_scrape` action (part_004:531-536):
`findFirst { shopId, status: 'running' }` viewed as an existence test. -/
def hasRunningJob (jobs : List ScrapingJob) (shopId : Nat) : Bool :=
  jobs.any (fun j => j.shopId == shopId && j.status == "running")

/-- The job row inserted on acceptance (`prisma.scrapingJob.create` with
`status: 'running'`, `startedAt: new Date()`; other columns take their
schema defaults). -/
def newRunningJob (id shopId : Nat) (jobType : String) (now : Int) : ScrapingJob :=
  { id := id, shopId := shopId, jobType := jobType, status := "running",
    progress := 0, itemsFound := 0, itemsProcessed := 0, errorMessage := none,
    startedAt := some now, completedAt := none, createdAt := now }

/-- Atomic view of the guarded start (auto-scraper.js:39-60): check for a
running job, refuse if found, otherwise insert a fresh `running` row.
Returns the JS boolean result together with the new jobs table. -/
def triggerAutoScrapeGuard (jobs : List ScrapingJob) (nextId shopId : Nat)
    (jobType : String) (now : Int) : Bool × List ScrapingJob :=
  if hasRunningJob jobs shopId then (false, jobs)
  else (true, jobs ++ [newRunningJob nextId shopId jobType now])

/-- `prisma.scrapingJob.update` setting progress (e.g. part_004:393-396). -/
def updateJobProgress (jobs : List ScrapingJob) (jobId progress : Nat) : List ScrapingJob :=
  jobs.map (fun j => if j.id == jobId then { j with progress := progress } else j)

/-- `prisma.scrapingJob.update` to the terminal `completed` state
(auto-scraper.js:207-216, part_004:460-469). -/
def completeJobRow (jobs : List ScrapingJob) (jobId found processed : Nat)
    (now : Int) : List ScrapingJob :=
  jobs.map (fun j => if j.id == jobId then
    { j with status := "completed", progress := 100, itemsFound := found,
             itemsProcessed := processed, completedAt := some now } else j)

/-- `prisma.scrapingJob.update` to the terminal `failed` state keyed by job
id (the `.catch` handler in triggerAutoScrape, auto-scraper.js:67-76). -/
def failJobRow (jobs : List ScrapingJob) (jobId : Nat) (msg : String)
    (now : Int) : List ScrapingJob :=
  jobs.map (fun j => if j.id == jobId then
    { j with status := "failed", errorMessage := some msg, completedAt := some now } else j)

/-- `prisma.scrapingJob.updateMany({ where: { shopId, status: 'running' } })`
to `failed` (the catch block of performFullScrape, part_004:479-486). -/
def failRunningJobsOfShop (jobs : List ScrapingJob) (shopId : Nat) (msg : String)
    (now : Int) : List ScrapingJob :=
  jobs.map (fun j => if j.shopId == shopId && j.status == "running" then
    { j with status := "failed", errorMessage := some msg, completedAt := some now } else j)

/-- Fine-grained state of the job coordinator: the jobs table, a fresh-id
counter, and the start requests that have passed the running-job check but
have not yet inserted their row (the code awaits the database between the
`findFirst` check and the `create`, so another request can run in
between). -/
structure SyncState where
  jobs : List ScrapingJob
  nextId : Nat
  pending : List Nat
  deriving Repr, DecidableEq

/-- Initial state: empty jobs table. -/
def SyncState.init : SyncState := { jobs := [], nextId := 0, pending := [] }

/-- Interleaved small-step semantics of the job coordinator.  A start
request executes `checkPass` (the guard found no running job) and later
`insertJob` (the `create`); a start whose check finds a running job simply
refuses, leaving the state unchanged, so it needs no step.  Running jobs
can finish via `complete` or `fail`. -/
inductive SyncStep : SyncState → SyncState → Prop where
  | checkPass (σ : SyncState) (s : Nat) (h : hasRunningJob σ.jobs s = false) :
      SyncStep σ { σ with pending := σ.pending ++ [s] }
  | insertJob (σ : SyncState) (s : Nat) (jobType : String) (now : Int)
      (h : s ∈ σ.pending) :
      SyncStep σ { jobs := σ.jobs ++ [newRunningJob σ.nextId s jobType now],
                   nextId := σ.nextId + 1, pending := σ.pending.erase s }
  | complete (σ : SyncState) (jobId found processed : Nat) (now : Int) :
      SyncStep σ { σ with jobs := completeJobRow σ.jobs jobId found processed now }
  | fail (σ : SyncState) (jobId : Nat) (msg : String) (now : Int) :
      SyncStep σ { σ with jobs := failJobRow σ.jobs jobId msg now }

/-- States reachable by the interleaved semantics. -/
def SyncReachable (σ : SyncState) : Prop :=
  Relation.ReflTransGen SyncStep SyncState.init σ

/-- Idealized semantics in which the guard check and the row insert of a
start request execute back to back, with no other operation in between. -/
inductive AtomicSyncStep : SyncState → SyncState → Prop where
  | start (σ : SyncState) (s : Nat) (jobType : String) (now : Int)
      (h : hasRunningJob σ.jobs s = false) :
      AtomicSyncStep σ { jobs := σ.jobs ++ [newRunningJob σ.nextId s jobType now],
                         nextId := σ.nextId + 1, pending := σ.pending }
  | complete (σ : SyncState) (jobId found processed : Nat) (now : Int) :
      AtomicSyncStep σ { σ with jobs := completeJobRow σ.jobs jobId found processed now }
  | fail (σ : SyncState) (jobId : Nat) (msg : String) (now : Int) :
      AtomicSyncStep σ { σ with jobs := failJobRow σ.jobs jobId msg now }

/-- States reachable by the atomic semantics. -/
def AtomicSyncReachable (σ : SyncState) : Prop :=
  Relation.ReflTransGen AtomicSyncStep SyncState.init σ

/-- The single-flight invariant: for every tenant, at most one `running`
job row. -/
def singleFlight (jobs : List ScrapingJob) : Prop :=
  ∀ s : Nat, jobs.countP (fun j => j.shopId == s && j.status == "running") ≤ 1

/-! ## Content records and normalization (ContentNormalizer) -/

/-- One row of the `shop_content` table
(migration 20250827090113_add_content_scraping). -/
structure ShopContent where
  shopId : Nat
  contentType : String
  externalId : String
  title : String
  content : String
  excerpt : String
  url : String
  tags : String
  publishedAt : Int
  searchableContent : String
  keywords : String
  lastScraped : Int
  isActive : Bool
  deriving Repr, DecidableEq

/-- One raw product node as returned by the catalog GraphQL query
(part_004:46-100, auto-scraper.js:101-127).  Nullable fields are `Option`;
connection fields are projected to the parts the code reads. -/
structure RawProduct where
  id : String
  title : String
  handle : String
  description : Option String
  tags : Option (List String)
  vendor : Option String
  productType : Option String
  createdAt : Int
  status : String
  variantTitles : List String
  variantsAvailable : List Bool
  collectionTitles : List String
  deriving Repr, DecidableEq

/-- One global pass of the regex replace `<[^>]*>` → single space: at each
`<` that is followed by some `>`, drop everything through the first `>` and
emit one space; a `<` with no later `>` cannot start a match.  The fuel
argument only serves structural recursion; callers pass the list length,
which always suffices because every step consumes at least one character. -/
def stripTagsAux : Nat → List Char → List Char
  | 0, l => l
  | _, [] => []
  | fuel + 1, c :: rest =>
    if c == '<' && rest.contains '>' then
      ' ' :: stripTagsAux fuel ((rest.dropWhile (fun d => !(d == '>'))).tail)
    else c :: stripTagsAux fuel rest

/-- One global pass of the regex replace `\s+` → single space.  Fuel as in
`stripTagsAux`. -/
def collapseWsAux : Nat → List Char → List Char
  | 0, l => l
  | _, [] => []
  | fuel + 1, c :: rest =>
    if isJsWhitespace c then
      ' ' :: collapseWsAux fuel (rest.dropWhile isJsWhitespace)
    else c :: collapseWsAux fuel rest

/-- `processContentForSearch` (part_004:6-15): falsy input gives the empty
string; otherwise strip HTML tags, collapse whitespace, trim and
lowercase. -/
def processContentForSearch (text : String) : String :=
  if text == "" then ""
  else jsToLower (jsTrim (String.mk (collapseWsAux text.length (stripTagsAux text.length text.toList))))

/-- JS `[ ... ].filter(Boolean).join(sep)` over a list whose entries may be
`undefined` (`none`) or empty strings — both are falsy and dropped. -/
def joinTruthy (sep : String) (parts : List (Option String)) : String :=
  joinSep sep ((parts.filterMap id).filter (fun s => !(s == "")))

/-- The stopword list of `extractKeywords` (part_004:29). -/
def stopwords : List String :=
  ["the", "and", "for", "are", "but", "not", "you", "all", "can", "had",
   "her", "was", "one", "our", "out", "day", "get", "has", "him", "his",
   "how", "its", "may", "new", "now", "old", "see", "two", "way", "who",
   "boy", "did", "man", "men", "put", "say", "she", "too", "use"]

/-- JS `\w` word characters (ASCII letters, digits, underscore). -/
def isWordChar (c : Char) : Bool := c.isAlphanum || c == '_'

/-- Order-preserving deduplication, as produced by `[...new Set(words)]`. -/
def dedupFirstAux (seen : List String) : List String → List String
  | [] => []
  | w :: ws =>
    if seen.contains w then dedupFirstAux seen ws
    else w :: dedupFirstAux (w :: seen) ws

/-- Order-preserving deduplication starting from an empty seen set. -/
def dedupFirst (l : List String) : List String := dedupFirstAux [] l

/-- `extractKeywords` (part_004:18-34): lowercase title+text, replace
non-word characters by spaces, split on whitespace, keep words longer than
3 that are not stopwords, deduplicate, cap at 20, join with a comma. -/
def extractKeywords (text : String) (title : String) : String :=
  if text == "" && title == "" then ""
  else
    let combined := jsToLower (title ++ " " ++ text)
    let replaced := String.mk (combined.toList.map (fun c =>
      if isWordChar c || isJsWhitespace c then c else ' '))
    let words := (splitBy isJsWhitespace replaced).filter (fun w =>
      w.length > 3 && !(stopwords.contains w))
    joinSep ", " ((dedupFirst words).take 20)

/-- JS template-literal coercion: an `undefined` field interpolates as the
string `"undefined"`. -/
def jsTemplate (x : Option String) : String := x.getD "undefined"

/-- The excerpt expression of the product normalizers
(part_004:146, auto-scraper.js:173, api.cron.jsx:72):
`product.description?.substring(0, 200) + '...' || ''`.
Because `+` binds tighter than `||`, this parses as
`((description?.substring(0,200)) + '...') || ''`; when `description` is
absent, `undefined + '...'` coerces to the string `"undefined..."`, which
is truthy, so the final `|| ''` branch is unreachable. -/
def productExcerpt (description : Option String) : String :=
  let withEllipsis :=
    (match description with
     | some s => jsSubstring s 200
     | none => "undefined") ++ "..."
  if withEllipsis == "" then "" else withEllipsis

/-- The searchable-content text assembled by `scrapeProducts`
(part_004:125-133). -/
def scrapeProductSearchable (p : RawProduct) : String :=
  processContentForSearch (joinTruthy " "
    [some p.title, p.description, p.vendor, p.productType,
     p.tags.map (joinSep " "),
     some (joinSep " " p.variantTitles),
     some (joinSep " " p.collectionTitles)])

/-- The keyword source text of `scrapeProducts` (part_004:135-138): a JS
template literal, so absent fields interpolate as `"undefined"`. -/
def scrapeProductKeywordText (p : RawProduct) : String :=
  jsTemplate p.description ++ " " ++ jsTemplate (p.tags.map (joinSep " "))
    ++ " " ++ jsTemplate p.vendor ++ " " ++ jsTemplate p.productType

/-- The ShopContent row pushed by `scrapeProducts` (part_004:140-154). -/
def scrapeProductRecord (shopId : Nat) (now : Int) (p : RawProduct) : ShopContent :=
  { shopId := shopId
    contentType := "product"
    externalId := p.id
    title := p.title
    content := p.description.getD ""
    excerpt := productExcerpt p.description
    url := "/products/" ++ p.handle
    tags := (p.tags.map (joinSep ", ")).getD ""
    publishedAt := p.createdAt
    searchableContent := scrapeProductSearchable p
    keywords := extractKeywords (scrapeProductKeywordText p) p.title
    lastScraped := now
    isActive := p.status == "ACTIVE" }

/-- The ShopContent row built by `performBackgroundScrape`
(auto-scraper.js:149-182): a simplified normalization (plain lowercase
join for the search blob, comma join of title/tags/vendor/type for the
keywords). -/
def backgroundProductRecord (shopId : Nat) (now : Int) (p : RawProduct) : ShopContent :=
  { shopId := shopId
    contentType := "product"
    externalId := p.id
    title := p.title
    content := p.description.getD ""
    excerpt := productExcerpt p.description
    url := "/products/" ++ p.handle
    tags := (p.tags.map (joinSep ", ")).getD ""
    publishedAt := p.createdAt
    searchableContent :=
      jsToLower (joinTruthy " " [some p.title, p.description, p.vendor, p.productType,
        p.tags.map (joinSep " ")])
    keywords :=
      joinTruthy ", " ([some p.title] ++ (p.tags.getD []).map some ++ [p.vendor, p.productType])
    lastScraped := now
    isActive := p.status == "ACTIVE" }

/-! ## Content store (ContentStore) -/

/-- The unique key of `shop_content`
(`shop_content_shopId_contentType_externalId_key`). -/
def contentKey (r : ShopContent) : Nat × String × String :=
  (r.shopId, r.contentType, r.externalId)

/-- Batched `createMany` with `skipDuplicates: true`: rows whose unique key
already occurs (in the table or earlier in the batch) are skipped.  The
batch size (50 or 100 in the sources) does not affect the final table. -/
def createManySkipDup (table rows : List ShopContent) : List ShopContent :=
  rows.foldl (fun acc r =>
    if acc.any (fun x => decide (contentKey x = contentKey r)) then acc
    else acc ++ [r]) table

/-- The store phase of `performBackgroundScrape` (auto-scraper.js:136-203):
delete the tenant's rows of `contentType: 'product'` only, then insert the
normalized products that have at least one available variant. -/
def backgroundStorePhase (table : List ShopContent) (shopId : Nat)
    (raws : List RawProduct) (now : Int) : List ShopContent :=
  let remaining := table.filter (fun r => !(r.shopId == shopId && r.contentType == "product"))
  let products := (raws.filter (fun p => p.variantsAvailable.any (fun b => b))).map
    (backgroundProductRecord shopId now)
  createManySkipDup remaining products

/-- The store phase of `performFullScrape` (part_004:431-457):
`prisma.shopContent.deleteMany({ where: { shopId } })` — all rows of the
tenant, regardless of category — followed by batched inserts of the
combined scraped content. -/
def fullScrapeStorePhase (table : List ShopContent) (shopId : Nat)
    (allContent : List ShopContent) : List ShopContent :=
  createManySkipDup (table.filter (fun r => !(r.shopId == shopId))) allContent

/-! ## Sync pipelines -/

/-- Combined database state touched by the sync pipelines. -/
structure Db where
  jobs : List ScrapingJob
  content : List ShopContent
  deriving Repr, DecidableEq

/-- `performBackgroundScrape` (auto-scraper.js:88-225) with the paginated
fetch modelled as its outcome: either the raw product list or the thrown
error's message.  A thrown error propagates (`Except.error`) carrying the
database as of the throw (the progress-10 update has already been
written). -/
def performBackgroundScrape (db : Db) (shopId jobId : Nat)
    (fetch : Except String (List RawProduct)) (now : Int) : Except (String × Db) Db :=
  let db1 : Db := { db with jobs := updateJobProgress db.jobs jobId 10 }
  match fetch with
  | .error e => .error (e, db1)
  | .ok raws =>
    let db2 : Db := { db1 with jobs := updateJobProgress db1.jobs jobId 50 }
    let content2 := backgroundStorePhase db2.content shopId raws now
    let processed := ((raws.filter (fun p => p.variantsAvailable.any (fun b => b)))).length
    .ok { jobs := completeJobRow db2.jobs jobId processed processed now
          content := content2 }

/-- The dispatch-and-catch of `triggerAutoScrape` (auto-scraper.js:62-77):
run the background pipeline; if it throws, mirror the error into the job
row (`status: 'failed'`, the error text, a completion timestamp). -/
def triggerAutoScrapeRun (db : Db) (shopId jobId : Nat)
    (fetch : Except String (List RawProduct)) (now : Int) : Db :=
  match performBackgroundScrape db shopId jobId fetch now with
  | .ok db2 => db2
  | .error (e, dbp) => { dbp with jobs := failJobRow dbp.jobs jobId e now }

/-- One raw blog-article node (part_004:204-230), projected to the fields
the normalizer reads. -/
structure RawArticle where
  id : String
  title : String
  handle : String
  blogHandle : String
  contentHtml : Option String
  excerpt : Option String
  tags : Option (List String)
  createdAt : Int
  publishedAt : Option Int
  status : String
  deriving Repr, DecidableEq

/-- The ShopContent row pushed by `scrapeBlogArticles` (part_004:254-269). -/
def scrapeArticleRecord (shopId : Nat) (now : Int) (a : RawArticle) : ShopContent :=
  { shopId := shopId
    contentType := "article"
    externalId := a.id
    title := a.title
    content := a.contentHtml.getD ""
    excerpt :=
      match a.excerpt with
      | some e => if e == "" then (match a.contentHtml with
          | some c => jsSubstring c 300 ++ "..."
          | none => "undefined...") else e
      | none => (match a.contentHtml with
          | some c => jsSubstring c 300 ++ "..."
          | none => "undefined...")
    url := "/blogs/" ++ a.blogHandle ++ "/" ++ a.handle
    tags := (a.tags.map (joinSep ", ")).getD ""
    publishedAt := a.publishedAt.getD a.createdAt
    searchableContent := processContentForSearch (joinTruthy " "
      [some a.title, a.contentHtml, a.excerpt, a.tags.map (joinSep " ")])
    keywords := extractKeywords
      (jsTemplate a.contentHtml ++ " " ++ jsTemplate (a.tags.map (joinSep " ")))
      a.title
    lastScraped := now
    isActive := a.status == "published" }

/-- One raw collection node (part_004:294-315). -/
structure RawCollection where
  id : String
  title : String
  handle : String
  description : Option String
  updatedAt : Int
  deriving Repr, DecidableEq

/-- The ShopContent row pushed by `scrapeCollections` (part_004:346-360). -/
def scrapeCollectionRecord (shopId : Nat) (now : Int) (c : RawCollection) : ShopContent :=
  { shopId := shopId
    contentType := "collection"
    externalId := c.id
    title := c.title
    content := c.description.getD ""
    excerpt := productExcerpt c.description
    url := "/collections/" ++ c.handle
    tags := ""
    publishedAt := c.updatedAt
    searchableContent := processContentForSearch (joinTruthy " " [some c.title, c.description])
    keywords := extractKeywords (jsTemplate c.description) c.title
    lastScraped := now
    isActive := true }

/-- `performFullScrape` (part_004:375-493) with the three category fetches
modelled as outcomes.  An article-fetch error whose message contains
"Access denied for blogs field" is caught and the category skipped
(part_004:408-419); any other fetch error propagates with the database as
of the throw.  On success the store phase replaces the tenant's content
and the job completes. -/
def performFullScrape (db : Db) (shopId jobId : Nat)
    (productsFetch : Except String (List RawProduct))
    (articlesFetch : Except String (List RawArticle))
    (collectionsFetch : Except String (List RawCollection))
    (now : Int) : Except (String × Db) Db :=
  let db0 : Db := { db with jobs := db.jobs ++ [newRunningJob jobId shopId "full_scrape" now] }
  let db1 : Db := { db0 with jobs := updateJobProgress db0.jobs jobId 10 }
  match productsFetch with
  | .error e => .error (e, db1)
  | .ok rawProducts =>
    let db2 : Db := { db1 with jobs := updateJobProgress db1.jobs jobId 50 }
    let articles : Except (String × Db) (List RawArticle) :=
      match articlesFetch with
      | .ok rawArticles => .ok rawArticles
      | .error e =>
        if jsIncludes e "Access denied for blogs field" then .ok []
        else .error (e, db2)
    match articles with
    | .error p => .error p
    | .ok rawArticles =>
      let db3 : Db := { db2 with jobs := updateJobProgress db2.jobs jobId 80 }
      match collectionsFetch with
      | .error e => .error (e, db3)
      | .ok rawCollections =>
        let allContent :=
          rawProducts.map (scrapeProductRecord shopId now)
            ++ rawArticles.map (scrapeArticleRecord shopId now)
            ++ rawCollections.map (scrapeCollectionRecord shopId now)
        let totalItems := allContent.length
        let content2 := fullScrapeStorePhase db3.content shopId allContent
        .ok { jobs := completeJobRow db3.jobs jobId totalItems totalItems now
              content := content2 }

/-- The outer catch of `performFullScrape` (part_004:474-492): on a thrown
error, `updateMany` every `running` job of the tenant to `failed` with the
error text and a completion timestamp. -/
def performFullScrapeRun (db : Db) (shopId jobId : Nat)
    (productsFetch : Except String (List RawProduct))
    (articlesFetch : Except String (List RawArticle))
    (collectionsFetch : Except String (List RawCollection))
    (now : Int) : Db :=
  match performFullScrape db shopId jobId productsFetch articlesFetch collectionsFetch now with
  | .ok db2 => db2
  | .error (e, dbp) => { dbp with jobs := failRunningJobsOfShop dbp.jobs shopId e now }

/-! ## Relevance-scored retrieval (RetrievalEngine, scoring mode) -/

/-- One global pass of `String.prototype.replace(new RegExp(pat, 'gi'), repl)`
for a plain-word pattern over an already lowercased string: replace every
(leftmost, non-overlapping) occurrence of `pat` by `repl`.  Fuel as in
`stripTagsAux`. -/
def replaceAllAux (pat repl : List Char) : Nat → List Char → List Char
  | 0, l => l
  | _, [] => []
  | fuel + 1, c :: rest =>
    if !pat.isEmpty && pat.isPrefixOf (c :: rest) then
      repl ++ replaceAllAux pat repl fuel ((c :: rest).drop pat.length)
    else c :: replaceAllAux pat repl fuel rest

/-- String wrapper for `replaceAllAux`. -/
def jsReplaceAll (s pat repl : String) : String :=
  String.mk (replaceAllAux pat.toList repl.toList s.toList.length s.toList)

/-- The misspelling/variation correction table of `intelligentProductSearch`
(part_003:519-530), in JS `Object.keys` order. -/
def corrections : List (String × String) :=
  [("chocolat", "chocolate"), ("chokolate", "chocolate"), ("choclate", "chocolate"),
   ("chocolade", "chocolate"), ("deit", "diet"), ("dieet", "diet"), ("lite", "diet"),
   ("light", "diet"), ("low cal", "diet"), ("lowcal", "diet")]

/-- Sequential application of the corrections (part_003:533-536). -/
def applyCorrections (q : String) : String :=
  corrections.foldl (fun acc m => jsReplaceAll acc m.1 m.2) q

/-- The corrected query derived from a raw query (part_003:516,533-536). -/
def correctedQueryOf (query : String) : String :=
  applyCorrections (jsTrim (jsToLower query))

/-- The token list of the corrected query: split on whitespace, keep words
longer than 2 (part_003:539). -/
def queryWords (query : String) : List String :=
  (splitBy isJsWhitespace (correctedQueryOf query)).filter (fun w => w.length > 2)

/-- The relevance score assigned to one product by
`intelligentProductSearch` (part_003:542-581). -/
def productScore (query : String) (product : ShopContent) : Nat :=
  let correctedQuery := correctedQueryOf query
  let words := queryWords query
  let title := jsToLower product.title
  let content := jsToLower product.content
  let searchable := jsToLower product.searchableContent
  let keywords := jsToLower product.keywords
  let exact := if jsIncludes title correctedQuery then 100 else 0
  let allInTitle := if words.all (fun w => jsIncludes title w) then 80 else 0
  let allAnywhere := if words.all (fun w =>
      jsIncludes title w || jsIncludes content w ||
      jsIncludes searchable w || jsIncludes keywords w) then 60 else 0
  let perWord := words.foldl (fun acc w => acc
      + (if jsIncludes title w then 20 else 0)
      + (if jsIncludes content w then 10 else 0)
      + (if jsIncludes searchable w then 15 else 0)
      + (if jsIncludes keywords w then 25 else 0)) 0
  let contextBonus :=
    if jsIncludes correctedQuery "diet" && jsIncludes correctedQuery "chocolate" then
      (if jsIncludes title "diet" && (jsIncludes title "chocolate" || jsIncludes content "chocolate")
       then 150 else 0)
      + (if jsIncludes title "chocolate" && (jsIncludes content "diet" || jsIncludes content "meal replacement")
         then 120 else 0)
    else 0
  exact + allInTitle + allAnywhere + perWord + contextBonus

/-- Insertion step of a stable descending sort on the score component,
matching the stable JS `sort((a, b) => b.score - a.score)`: a new element
goes after every already placed element of greater or equal score. -/
def insertByScoreDesc (x : ShopContent × Nat) :
    List (ShopContent × Nat) → List (ShopContent × Nat)
  | [] => [x]
  | y :: ys => if y.2 ≥ x.2 then y :: insertByScoreDesc x ys else x :: y :: ys

/-- Stable descending sort on the score component (left fold of
insertions preserves the input order among equal scores). -/
def sortByScoreDesc (l : List (ShopContent × Nat)) : List (ShopContent × Nat) :=
  l.foldl (fun acc x => insertByScoreDesc x acc) []

/-- `intelligentProductSearch` (part_003:515-588): score every product,
keep the strictly positive scores, sort descending by score (stable), and
return the products. -/
def intelligentProductSearch (products : List ShopContent) (query : String) :
    List ShopContent :=
  let scoredProducts := products.map (fun product => (product, productScore query product))
  (sortByScoreDesc (scoredProducts.filter (fun item => item.2 > 0))).map (fun item => item.1)

/-! ## Model-call retry (ConversationOrchestrator) -/

/-- The error shape inspected by `createChatCompletionWithRetry`
(api.chat.jsx:203-224): the HTTP status and the parsed retry-after headers.
`none` models an absent header, whose `Number(...)` coercion is `NaN` and
therefore falsy in the `||` chains. -/
structure ApiError where
  status : Nat
  retryAfterMsHeader : Option Nat
  retryAfterSecHeader : Option Nat
  message : String
  deriving Repr, DecidableEq

/-- JS numeric `x || y`: `x` unless it is falsy (0, or NaN modelled as 0). -/
def jsOrNonzero (a b : Nat) : Nat := if a == 0 then b else a

/-- The wait computed before one retry (api.chat.jsx:212-215):
`Number(headers["retry-after-ms"]) || Number(headers["retry-after"]) * 1000
|| 1000 * (attempt + 1)`, then `Math.min(retryAfterMs || 1000, 5000)`. -/
def retryWaitMs (e : ApiError) (attempt : Nat) : Nat :=
  let retryAfterMs := jsOrNonzero (e.retryAfterMsHeader.getD 0)
    (jsOrNonzero ((e.retryAfterSecHeader.getD 0) * 1000) (1000 * (attempt + 1)))
  min (jsOrNonzero retryAfterMs 1000) 5000

/-- The retry loop of `createChatCompletionWithRetry` (api.chat.jsx:204-224)
with the provider modelled as a function from the attempt index to an
outcome.  Returns the final outcome and the list of waits performed.  The
fuel argument only serves structural recursion; the top-level entry passes
`maxRetries`, which suffices because the loop retries only while
`attempt < maxRetries` and each retry raises `attempt` by one. -/
def createChatCompletionWithRetryAux {α : Type} (call : Nat → Except ApiError α)
    (maxRetries : Nat) : Nat → Nat → Except ApiError α × List Nat
  | attempt, fuel =>
    match call attempt with
    | .ok r => (.ok r, [])
    | .error e =>
      if e.status == 429 && attempt < maxRetries then
        match fuel with
        | 0 => (.error e, [])
        | fuel + 1 =>
          let w := retryWaitMs e attempt
          let rest := createChatCompletionWithRetryAux call maxRetries (attempt + 1) fuel
          (rest.1, w :: rest.2)
      else (.error e, [])

/-- `createChatCompletionWithRetry(params, maxRetries = 2)`: start at
attempt 0. -/
def createChatCompletionWithRetry {α : Type} (call : Nat → Except ApiError α)
    (maxRetries : Nat := 2) : Except ApiError α × List Nat :=
  createChatCompletionWithRetryAux call maxRetries 0 maxRetries

/-! ## Chat session creation (ConversationOrchestrator) -/

/-- One row of the `chat_sessions` table (sessionId carries the unique
index `chat_sessions_sessionId_key`). -/
structure ChatSession where
  id : Nat
  sessionId : String
  shopId : Nat
  currentCart : String
  language : String
  isActive : Bool
  customerFingerprint : Option String
  expiresAt : Int
  deriving Repr, DecidableEq

/-- `prisma.chatSession.findUnique({ where: { sessionId } })`. -/
def chatSessionFindUnique (sessions : List ChatSession) (sessionId : String) :
    Option ChatSession :=
  sessions.find? (fun s => s.sessionId == sessionId)

/-- `prisma.chatSession.create`: rejected with a unique-constraint error
when a row with the same sessionId already exists. -/
def chatSessionCreate (sessions : List ChatSession) (row : ChatSession) :
    Except String (List ChatSession) :=
  if sessions.any (fun s => s.sessionId == row.sessionId) then
    .error "Unique constraint failed on the fields: (sessionId)"
  else .ok (sessions ++ [row])

/-- Outcome of the session phase of a chat turn: either the turn proceeds
with a session row, or a thrown error reached the turn-level catch
(api.chat.jsx:353-358), which answers with the fixed apology text. -/
inductive SessionPhaseResult where
  | proceeds (session : ChatSession) : SessionPhaseResult
  | errorResponse (message : String) : SessionPhaseResult
  deriving Repr, DecidableEq

/-- The fixed user-facing error string of the turn-level catch. -/
def genericTurnError : String :=
  "I apologize, but I'm having trouble right now. Please try again in a moment."

/-- The get-or-create session phase (api.chat.jsx:112-132), made explicit
about the race window: `findUnique` runs against the table as of the check
(`checkSessions`), while `create` runs against the table as of the insert
(`createSessions`) — between the two awaits another request may have
inserted the same sessionId.  A create failure propagates to the turn-level
catch; there is no fallback read.  Returns the outcome and the table after
the phase. -/
def getOrCreateChatSession (checkSessions createSessions : List ChatSession)
    (newRow : ChatSession) : SessionPhaseResult × List ChatSession :=
  match chatSessionFindUnique checkSessions newRow.sessionId with
  | some s => (.proceeds s, createSessions)
  | none =>
    match chatSessionCreate createSessions newRow with
    | .ok sessions2 => (.proceeds newRow, sessions2)
    | .error _ => (.errorResponse genericTurnError, createSessions)

/-! ## Popular-question analytics (AnalyticsAggregator) -/

/-- One row of the `popular_questions` table (unique on
`popular_questions_shopId_question_key`, part_002:53-54). -/
structure PopularQuestion where
  shopId : Nat
  question : String
  frequency : Nat
  lastAsked : Int
  deriving Repr, DecidableEq

/-- `prisma.popularQuestions.upsert` keyed by `shopId_question`: increment
frequency and refresh lastAsked on the existing row, else create a row with
frequency 1. -/
def popularQuestionsUpsert (rows : List PopularQuestion) (shopId : Nat)
    (q : String) (now : Int) : List PopularQuestion :=
  if rows.any (fun r => r.shopId == shopId && r.question == q) then
    rows.map (fun r => if r.shopId == shopId && r.question == q then
      { r with frequency := r.frequency + 1, lastAsked := now } else r)
  else rows ++ [{ shopId := shopId, question := q, frequency := 1, lastAsked := now }]

/-- `trackPopularQuestion` (app.chatbot.jsx:394-415): lowercase and trim,
skip questions shorter than 3 characters, then upsert by
(shopId, normalized question). -/
def trackPopularQuestion (rows : List PopularQuestion) (shopId : Nat)
    (question : String) (now : Int) : List PopularQuestion :=
  let normalizedQuestion := jsTrim (jsToLower question)
  if normalizedQuestion.length < 3 then rows
  else popularQuestionsUpsert rows shopId normalizedQuestion now

/-- The inline analytics write of the public chat route
(api.chat.jsx:326-345): the same upsert keyed by
(shopId, `message.toLowerCase().trim()`), with no minimum-length check. -/
def publicChatRecordQuestion (rows : List PopularQuestion) (shopId : Nat)
    (message : String) (now : Int) : List PopularQuestion :=
  popularQuestionsUpsert rows shopId (jsTrim (jsToLower message)) now

/-! ## Concrete instances used in the theorems below -/

/-- A stored product titled "Diet Chocolate Bar" (spec §8 example). -/
def dietChocBar : ShopContent :=
  { shopId := 1, contentType := "product", externalId := "p1",
    title := "Diet Chocolate Bar", content := "", excerpt := "", url := "",
    tags := "", publishedAt := 100, searchableContent := "", keywords := "",
    lastScraped := 0, isActive := true }

/-- A stored product titled "Vanilla Bar" (spec §8 example). -/
def vanillaBar : ShopContent :=
  { dietChocBar with externalId := "p2", title := "Vanilla Bar", publishedAt := 200 }

/-- A product whose only match for the token "zebra" is in the title. -/
def titleOnlyProd : ShopContent :=
  { dietChocBar with externalId := "t1", title := "Zebra" }

/-- A product whose only match for the token "zebra" is in the keywords. -/
def keywordsOnlyProd : ShopContent :=
  { dietChocBar with externalId := "k1", title := "x", keywords := "zebra" }

/-- A product whose only match for the token "zebra" is in the search blob. -/
def searchableOnlyProd : ShopContent :=
  { dietChocBar with externalId := "s1", title := "x", searchableContent := "zebra" }

/-- A product whose only match for the token "zebra" is in the body. -/
def contentOnlyProd : ShopContent :=
  { dietChocBar with externalId := "c1", title := "x", content := "zebra" }

/-- An older product titled "Snack Bar" (tie-breaking example). -/
def oldSnackBar : ShopContent :=
  { dietChocBar with externalId := "o1", title := "Snack Bar", publishedAt := 100 }

/-- A newer product with the same title as `oldSnackBar`. -/
def newSnackBar : ShopContent :=
  { oldSnackBar with externalId := "n1", publishedAt := 200 }

/-- A raw product with all optional fields absent. -/
def rawNoDesc : RawProduct :=
  { id := "gid1", title := "Choco", handle := "choco",
    description := none, tags := none, vendor := none, productType := none,
    createdAt := 0, status := "ACTIVE", variantTitles := [],
    variantsAvailable := [true], collectionTitles := [] }

/-- A stored content row of category `page` for tenant 1. -/
def pageRowC3 : ShopContent :=
  { shopId := 1, contentType := "page", externalId := "pg1", title := "Shipping",
    content := "", excerpt := "", url := "", tags := "", publishedAt := 0,
    searchableContent := "", keywords := "", lastScraped := 0, isActive := true }

/-- A completed job that was created at time 0 and completed 24 hours
later (a long-running job). -/
def longCompletedJob : ScrapingJob :=
  { id := 0, shopId := 1, jobType := "full_scrape", status := "completed",
    progress := 100, itemsFound := 0, itemsProcessed := 0, errorMessage := none,
    startedAt := some 0, completedAt := some 86400000, createdAt := 0 }

/-- A rate-limit error carrying a retry-after-ms hint above the 5000 ms cap. -/
def rateLimit6000 : ApiError :=
  { status := 429, retryAfterMsHeader := some 6000, retryAfterSecHeader := none,
    message := "rate limited" }

/-- A rate-limit error with no retry-after hints. -/
def rateLimitNoHint : ApiError :=
  { status := 429, retryAfterMsHeader := none, retryAfterSecHeader := none,
    message := "rate limited" }

/-- A non-rate-limit provider error. -/
def serverError500 : ApiError :=
  { status := 500, retryAfterMsHeader := none, retryAfterSecHeader := none,
    message := "server error" }

/-- A provider that is rate limited (with hints above the cap) on attempts
0 and 1 and succeeds on attempt 2. -/
def callHinted (attempt : Nat) : Except ApiError Nat :=
  if attempt < 2 then .error rateLimit6000 else .ok 42

/-- A provider that is rate limited (no hints) on attempts 0 and 1 and
succeeds on attempt 2. -/
def callNoHint (attempt : Nat) : Except ApiError Nat :=
  if attempt < 2 then .error rateLimitNoHint else .ok 42

/-- The session row created by the request that wins the race on
sessionId "s1". -/
def firstSessionRow : ChatSession :=
  { id := 1, sessionId := "s1", shopId := 1, currentCart := "\x7b\x7d", language := "en",
    isActive := true, customerFingerprint := some "fpA", expiresAt := 1000 }

/-- The session row the second, losing request attempts to create for the
same sessionId "s1". -/
def secondSessionRow : ChatSession :=
  { id := 2, sessionId := "s1", shopId := 1, currentCart := "\x7b\x7d", language := "en",
    isActive := true, customerFingerprint := some "fpB", expiresAt := 1001 }


/-- The job row observed after the background pipeline throws "boom" at
time 9 for a job created at time 0. -/
def failedBgJobRow : ScrapingJob :=
  { id := 5, shopId := 1, jobType := "auto_24h", status := "failed",
    progress := 10, itemsFound := 0, itemsProcessed := 0,
    errorMessage := some "boom", startedAt := some 0, completedAt := some 9,
    createdAt := 0 }

/-- The job row observed after the full scrape's product fetch throws
"net" at time 9. -/
def failedFullJobRow : ScrapingJob :=
  { id := 7, shopId := 1, jobType := "full_scrape", status := "failed",
    progress := 10, itemsFound := 0, itemsProcessed := 0,
    errorMessage := some "net", startedAt := some 9, completedAt := some 9,
    createdAt := 9 }

/-- A 210-character description used to exercise the 200-character
excerpt truncation. -/
def longDescC9 : String := "abcdefghijabcdefghijabcdefghijabcdefghijabcdefghijabcdefghijabcdefghijabcdefghijabcdefghijabcdefghijabcdefghijabcdefghijabcdefghijabcdefghijabcdefghijabcdefghijabcdefghijabcdefghijabcdefghijabcdefghijabcdefghij"

/-! ## Helper lemmas -/

theorem map_congr_id {β : Type} (f : β → β) (l : List β) (h : ∀ x ∈ l, f x = x) :
    l.map f = l := by
  induction l with
  | nil => rfl
  | cons a t ih =>
    simp only [List.map_cons]
    rw [h a (List.mem_cons_self a t), ih (fun x hx => h x (List.mem_cons_of_mem a hx))]

theorem filter_eq_nil_of_false {β : Type} (p : β → Bool) (l : List β)
    (h : ∀ x ∈ l, p x = false) : l.filter p = [] := by
  induction l with
  | nil => rfl
  | cons a t ih =>
    rw [List.filter_cons, h a (List.mem_cons_self a t)]
    exact ih (fun x hx => h x (List.mem_cons_of_mem a hx))

theorem retryAux_unfold_ok {α : Type} (call : Nat → Except ApiError α) (m attempt fuel : Nat)
    (r : α) (hc : call attempt = .ok r) :
    createChatCompletionWithRetryAux call m attempt fuel = (.ok r, []) := by
  conv_lhs => rw [createChatCompletionWithRetryAux, hc]

theorem retryAux_unfold_stop {α : Type} (call : Nat → Except ApiError α) (m attempt fuel : Nat)
    (e : ApiError) (hc : call attempt = .error e)
    (hcond : ¬(e.status = 429 ∧ attempt < m)) :
    createChatCompletionWithRetryAux call m attempt fuel = (.error e, []) := by
  conv_lhs => rw [createChatCompletionWithRetryAux, hc]
  match fuel with
  | 0 => dsimp only; rw [if_neg (by simpa using hcond)]
  | fuel + 1 => dsimp only; rw [if_neg (by simpa using hcond)]

theorem retryAux_unfold_retry {α : Type} (call : Nat → Except ApiError α) (m attempt fuel : Nat)
    (e : ApiError) (hc : call attempt = .error e) (hcond : e.status = 429 ∧ attempt < m) :
    createChatCompletionWithRetryAux call m attempt (fuel + 1)
      = ((createChatCompletionWithRetryAux call m (attempt + 1) fuel).1,
         retryWaitMs e attempt :: (createChatCompletionWithRetryAux call m (attempt + 1) fuel).2) := by
  conv_lhs => rw [createChatCompletionWithRetryAux, hc]
  dsimp only
  rw [if_pos (by simpa using hcond)]

theorem retryAux_waits_bounded {α : Type} (call : Nat → Except ApiError α) (m : Nat) :
    ∀ (fuel attempt : Nat),
      (createChatCompletionWithRetryAux call m attempt fuel).2.length ≤ fuel ∧
      ∀ w ∈ (createChatCompletionWithRetryAux call m attempt fuel).2, w ≤ 5000 := by
  intro fuel
  induction fuel with
  | zero =>
    intro attempt
    cases hc : call attempt with
    | ok r => rw [retryAux_unfold_ok call m attempt 0 r hc]; simp
    | error e =>
      by_cases hcond : e.status = 429 ∧ attempt < m
      · rw [createChatCompletionWithRetryAux, hc]
        dsimp only
        rw [if_pos (by simpa using hcond)]
        simp
      · rw [retryAux_unfold_stop call m attempt 0 e hc hcond]; simp
  | succ fuel ih =>
    intro attempt
    cases hc : call attempt with
    | ok r => rw [retryAux_unfold_ok call m attempt (fuel + 1) r hc]; simp
    | error e =>
      by_cases hcond : e.status = 429 ∧ attempt < m
      · rw [retryAux_unfold_retry call m attempt fuel e hc hcond]
        refine ⟨?_, ?_⟩
        · simpa using Nat.succ_le_succ (ih (attempt + 1)).1
        · intro w hw
          rcases List.mem_cons.mp hw with h | h
          · subst h
            exact min_le_right _ _
          · exact (ih (attempt + 1)).2 w h
      · rw [retryAux_unfold_stop call m attempt (fuel + 1) e hc hcond]; simp

theorem popularQuestionsUpsert_new (rows : List PopularQuestion) (s : Nat)
    (nq : String) (now : Int)
    (h : ∀ r ∈ rows, ¬(r.shopId = s ∧ r.question = nq)) :
    popularQuestionsUpsert rows s nq now
      = rows ++ [{ shopId := s, question := nq, frequency := 1, lastAsked := now }] := by
  have hany : (rows.any (fun r => r.shopId == s && r.question == nq)) = false := by
    rw [List.any_eq_false]
    intro r hr
    simp only [Bool.and_eq_true, beq_iff_eq, not_and]
    exact fun h1 h2 => h r hr ⟨h1, h2⟩
  simp [popularQuestionsUpsert, hany]

theorem upsert_twice_filter (rows : List PopularQuestion) (s : Nat) (nq : String)
    (n1 n2 : Int) (h : ∀ r ∈ rows, ¬(r.shopId = s ∧ r.question = nq)) :
    (popularQuestionsUpsert (popularQuestionsUpsert rows s nq n1) s nq n2).filter
        (fun r => r.shopId == s && r.question == nq)
      = [{ shopId := s, question := nq, frequency := 2, lastAsked := n2 }] := by
  rw [popularQuestionsUpsert_new rows s nq n1 h]
  have hmatch : ∀ r ∈ rows, (r.shopId == s && r.question == nq) = false := by
    intro r hr
    rcases Bool.eq_false_or_eq_true (r.shopId == s && r.question == nq) with hf | ht
    · have hp : r.shopId = s ∧ r.question = nq := by simpa using hf
      exact absurd hp (h r hr)
    · exact ht
  have hany : ((rows ++ [({ shopId := s, question := nq, frequency := 1, lastAsked := n1 } : PopularQuestion)]).any
      (fun r => r.shopId == s && r.question == nq)) = true := by
    simp
  simp only [popularQuestionsUpsert, hany, if_true, List.map_append, List.filter_append]
  have hmap : rows.map (fun r => if r.shopId == s && r.question == nq then
      { r with frequency := r.frequency + 1, lastAsked := n2 } else r) = rows :=
    map_congr_id _ rows (fun r hr => by rw [hmatch r hr]; simp)
  rw [hmap, filter_eq_nil_of_false _ rows hmatch]
  simp

theorem mem_insertByScoreDesc (x y : ShopContent × Nat) (l : List (ShopContent × Nat)) :
    y ∈ insertByScoreDesc x l → y = x ∨ y ∈ l := by
  induction l with
  | nil =>
    intro h
    rw [insertByScoreDesc] at h
    exact .inl (List.mem_singleton.mp h)
  | cons a t ih =>
    intro h
    rw [insertByScoreDesc] at h
    split at h
    · rcases List.mem_cons.mp h with h1 | h1
      · exact .inr (List.mem_cons.mpr (.inl h1))
      · rcases ih h1 with h2 | h2
        · exact .inl h2
        · exact .inr (List.mem_cons.mpr (.inr h2))
    · rcases List.mem_cons.mp h with h1 | h1
      · exact .inl h1
      · exact .inr h1

theorem pairwise_insertByScoreDesc (x : ShopContent × Nat) (l : List (ShopContent × Nat))
    (hl : l.Pairwise (fun a b => b.2 ≤ a.2)) :
    (insertByScoreDesc x l).Pairwise (fun a b => b.2 ≤ a.2) := by
  induction l with
  | nil => simp [insertByScoreDesc]
  | cons a t ih =>
    rw [List.pairwise_cons] at hl
    rw [insertByScoreDesc]
    split
    · rename_i hcond
      rw [List.pairwise_cons]
      refine ⟨?_, ih hl.2⟩
      intro y hy
      rcases mem_insertByScoreDesc x y t hy with h1 | h1
      · rw [h1]
        exact hcond
      · exact hl.1 y h1
    · rename_i hcond
      rw [List.pairwise_cons]
      refine ⟨?_, List.pairwise_cons.mpr hl⟩
      intro y hy
      rcases List.mem_cons.mp hy with h1 | h1
      · rw [h1]
        omega
      · have := hl.1 y h1
        omega

theorem mem_foldl_insertByScoreDesc (l : List (ShopContent × Nat)) :
    ∀ (acc : List (ShopContent × Nat)) (y : ShopContent × Nat),
      y ∈ l.foldl (fun a x => insertByScoreDesc x a) acc → y ∈ acc ∨ y ∈ l := by
  induction l with
  | nil =>
    intro acc y h
    exact .inl h
  | cons a t ih =>
    intro acc y h
    rw [List.foldl_cons] at h
    rcases ih (insertByScoreDesc a acc) y h with h1 | h1
    · rcases mem_insertByScoreDesc a y acc h1 with h2 | h2
      · exact .inr (List.mem_cons.mpr (.inl h2))
      · exact .inl h2
    · exact .inr (List.mem_cons.mpr (.inr h1))

theorem mem_sortByScoreDesc (l : List (ShopContent × Nat)) (y : ShopContent × Nat) :
    y ∈ sortByScoreDesc l → y ∈ l := by
  intro h
  rcases mem_foldl_insertByScoreDesc l [] y h with h1 | h1
  · exact absurd h1 (List.not_mem_nil y)
  · exact h1

theorem pairwise_foldl_insertByScoreDesc (l : List (ShopContent × Nat)) :
    ∀ (acc : List (ShopContent × Nat)), acc.Pairwise (fun a b => b.2 ≤ a.2) →
      (l.foldl (fun a x => insertByScoreDesc x a) acc).Pairwise (fun a b => b.2 ≤ a.2) := by
  induction l with
  | nil => intro acc h; exact h
  | cons a t ih =>
    intro acc h
    rw [List.foldl_cons]
    exact ih _ (pairwise_insertByScoreDesc a acc h)

theorem pairwise_sortByScoreDesc (l : List (ShopContent × Nat)) :
    (sortByScoreDesc l).Pairwise (fun a b => b.2 ≤ a.2) :=
  pairwise_foldl_insertByScoreDesc l [] List.Pairwise.nil

theorem createManySkipDup_append : ∀ (rows table : List ShopContent),
    ∃ extra, createManySkipDup table rows = table ++ extra ∧ ∀ r ∈ extra, r ∈ rows := by
  intro rows
  induction rows with
  | nil =>
    intro table
    exact ⟨[], by simp [createManySkipDup], by simp⟩
  | cons r rest ih =>
    intro table
    by_cases hd : (table.any (fun x => decide (contentKey x = contentKey r))) = true
    · have hstep : createManySkipDup table (r :: rest) = createManySkipDup table rest := by
        simp only [createManySkipDup, List.foldl_cons, hd, if_true]
      obtain ⟨extra, he, hs⟩ := ih table
      exact ⟨extra, hstep ▸ he, fun x hx => List.mem_cons_of_mem r (hs x hx)⟩
    · have hstep : createManySkipDup table (r :: rest) = createManySkipDup (table ++ [r]) rest := by
        simp only [createManySkipDup, List.foldl_cons]
        rw [if_neg hd]
      obtain ⟨extra, he, hs⟩ := ih (table ++ [r])
      refine ⟨r :: extra, ?_, ?_⟩
      · rw [hstep, he, List.append_assoc, List.singleton_append]
      · intro x hx
        rcases List.mem_cons.mp hx with h1 | h1
        · exact List.mem_cons.mpr (.inl h1)
        · exact List.mem_cons_of_mem r (hs x h1)

theorem mem_failJobRow_id (jobs : List ScrapingJob) (jobId : Nat) (msg : String) (now : Int) :
    ∀ j ∈ failJobRow jobs jobId msg now, j.id = jobId →
      j.status = "failed" ∧ j.errorMessage = some msg ∧ j.completedAt = some now := by
  intro j hj hid
  simp only [failJobRow, List.mem_map] at hj
  obtain ⟨a, ha, rfl⟩ := hj
  by_cases h : (a.id == jobId) = true
  · simp [h]
  · rw [if_neg h] at hid ⊢
    exact absurd (beq_iff_eq.mpr hid) (by simpa using h)

theorem mem_completeJobRow_id (jobs : List ScrapingJob) (jobId found processed : Nat) (now : Int) :
    ∀ j ∈ completeJobRow jobs jobId found processed now, j.id = jobId →
      j.status = "completed" ∧ j.completedAt = some now := by
  intro j hj hid
  simp only [completeJobRow, List.mem_map] at hj
  obtain ⟨a, ha, rfl⟩ := hj
  by_cases h : (a.id == jobId) = true
  · simp [h]
  · rw [if_neg h] at hid ⊢
    exact absurd (beq_iff_eq.mpr hid) (by simpa using h)

theorem mem_failRunningJobsOfShop_target (jobs : List ScrapingJob) (shopId : Nat)
    (msg : String) (now : Int) (jobId : Nat)
    (hall : ∀ a ∈ jobs, a.id = jobId → a.shopId = shopId ∧ a.status = "running") :
    ∀ j ∈ failRunningJobsOfShop jobs shopId msg now, j.id = jobId →
      j.status = "failed" ∧ j.errorMessage = some msg ∧ j.completedAt = some now := by
  intro j hj hid
  simp only [failRunningJobsOfShop, List.mem_map] at hj
  obtain ⟨a, ha, rfl⟩ := hj
  by_cases h : (a.shopId == shopId && a.status == "running") = true
  · simp [h]
  · rw [if_neg h] at hid ⊢
    have := hall a ha hid
    exact absurd (by simp [this.1, this.2]) h

theorem mem_updateJobProgress_shape (jobs : List ScrapingJob) (jobId p : Nat) :
    ∀ j ∈ updateJobProgress jobs jobId p, ∃ a ∈ jobs,
      j.id = a.id ∧ j.shopId = a.shopId ∧ j.status = a.status := by
  intro j hj
  simp only [updateJobProgress, List.mem_map] at hj
  obtain ⟨a, ha, rfl⟩ := hj
  by_cases h : (a.id == jobId) = true
  · exact ⟨a, ha, by simp [h]⟩
  · exact ⟨a, ha, by simp [h]⟩

theorem updateJobProgress_preserves_target (l : List ScrapingJob) (jobId p shopId : Nat)
    (h : ∀ a ∈ l, a.id = jobId → a.shopId = shopId ∧ a.status = "running") :
    ∀ j ∈ updateJobProgress l jobId p, j.id = jobId →
      j.shopId = shopId ∧ j.status = "running" := by
  intro j hj hid
  obtain ⟨a, ha, hshape⟩ := mem_updateJobProgress_shape l jobId p j hj
  have := h a ha (hshape.1 ▸ hid)
  exact ⟨hshape.2.1 ▸ this.1, hshape.2.2 ▸ this.2⟩

theorem countP_map_le_of_imp (f : ScrapingJob → ScrapingJob) (p : ScrapingJob → Bool) :
    ∀ l : List ScrapingJob, (∀ a ∈ l, p (f a) = true → p a = true) →
      (l.map f).countP p ≤ l.countP p := by
  intro l
  induction l with
  | nil => intro _; simp
  | cons a t ih =>
    intro h
    simp only [List.map_cons, List.countP_cons]
    have ht := ih (fun x hx => h x (List.mem_cons_of_mem a hx))
    have ha := h a (List.mem_cons_self a t)
    by_cases hpa : p (f a) = true
    · rw [if_pos hpa, if_pos (ha hpa)]
      omega
    · rw [if_neg hpa]
      split <;> omega

theorem atomicStep_preserves_singleFlight {σ σ2 : SyncState} (h : AtomicSyncStep σ σ2)
    (inv : singleFlight σ.jobs) : singleFlight σ2.jobs := by
  cases h with
  | start s jt now hrun =>
    intro t
    simp only [List.countP_append]
    by_cases hts : s = t
    · subst hts
      have h0 : σ.jobs.countP (fun j => j.shopId == s && j.status == "running") = 0 := by
        rw [List.countP_eq_zero]
        intro a ha hpa
        have hany : hasRunningJob σ.jobs s = true := List.any_eq_true.mpr ⟨a, ha, hpa⟩
        rw [hrun] at hany
        cases hany
      rw [h0]
      simp [List.countP_cons, newRunningJob]
    · have hnew : ((newRunningJob σ.nextId s jt now).shopId == t &&
          (newRunningJob σ.nextId s jt now).status == "running") = false := by
        simp [newRunningJob, hts]
      have h1 : ([newRunningJob σ.nextId s jt now].countP
          (fun j => j.shopId == t && j.status == "running")) = 0 := by
        simp [List.countP_cons, hnew]
      rw [h1]
      simpa using inv t
  | complete jobId found processed now =>
    intro t
    refine le_trans (countP_map_le_of_imp _ _ σ.jobs ?_) (inv t)
    intro a _ hpa
    by_cases hid : (a.id == jobId) = true
    · rw [if_pos hid] at hpa
      simp at hpa
    · rw [if_neg hid] at hpa
      exact hpa
  | fail jobId msg now =>
    intro t
    refine le_trans (countP_map_le_of_imp _ _ σ.jobs ?_) (inv t)
    intro a _ hpa
    by_cases hid : (a.id == jobId) = true
    · rw [if_pos hid] at hpa
      simp at hpa
    · rw [if_neg hid] at hpa
      exact hpa

theorem atomicReachable_singleFlight : ∀ σ : SyncState, AtomicSyncReachable σ →
    singleFlight σ.jobs := by
  intro σ h
  induction h with
  | refl => intro t; simp [SyncState.init, singleFlight]
  | tail hsteps hstep ih => exact atomicStep_preserves_singleFlight hstep ih

/-! ## Claim theorems -/

/-- C10: when the database lookup behind the staleness check throws, the
check returns false — an unverifiable state is treated as "no sync
needed" rather than propagating the error or triggering a sync
(auto-scraper.js:28-31). -/
theorem staleness_lookup_error_returns_false :
    ∀ (e : String) (now : Int), shouldAutoScrape (.error e) now = false :=
  fun _ _ => rfl

/-- C5 (counterexample): the claim says the periodic (cron) trigger's
23-hour staleness threshold measures elapsed time from the job's
completion; the code measures it from the job's `createdAt`
(api.cron.jsx:159-160).  For a job created at time 0 that completed 24
hours later, at 24.5 hours the code decides "needs scraping" although
the most recent completion was only half an hour ago. -/
theorem staleness_threshold_counterexample :
    ¬ (∀ (jobs : List ScrapingJob) (shopId : Nat) (now : Int),
        cronNeedsScrape jobs shopId now = cronStaleSpec jobs shopId now) := by
  intro h
  exact absurd (h [longCompletedJob] 1 88200000) (by decide)

/-- C5 (amended): the interactive staleness decision returns true when no
completed job exists, and otherwise returns true exactly when at least 24
hours have elapsed since the most recent completed job's completion; the
periodic (cron) trigger instead decides "needs scraping" exactly when no
completed job was CREATED within the last 23 hours (measured from
`createdAt`, not from completion). -/
theorem staleness_threshold_amended :
    (∀ (jobs : List ScrapingJob) (shopId : Nat) (now : Int),
        lastCompletedJob jobs shopId = none → shouldAutoScrapeDb jobs shopId now = true) ∧
    (∀ (jobs : List ScrapingJob) (shopId : Nat) (now : Int) (j : ScrapingJob),
        lastCompletedJob jobs shopId = some j →
        (shouldAutoScrapeDb jobs shopId now = true ↔
          hours24Ms ≤ now - j.completedAt.getD 0)) ∧
    (∀ (jobs : List ScrapingJob) (shopId : Nat) (now : Int),
        cronNeedsScrape jobs shopId now = true ↔
          ∀ j ∈ jobs, j.shopId = shopId → j.status = "completed" →
            j.createdAt < now - hours23Ms) := by
  refine ⟨?_, ?_, ?_⟩
  · intro jobs s now h
    simp [shouldAutoScrapeDb, shouldAutoScrape, h]
  · intro jobs s now j h
    simp [shouldAutoScrapeDb, shouldAutoScrape, h, ge_iff_le]
  · intro jobs s now
    rw [cronNeedsScrape, Bool.not_eq_true', List.any_eq_false]
    constructor
    · intro h j hj h1 h2
      have hnp := h j hj
      by_contra hc
      refine hnp ?_
      simp only [Bool.and_eq_true, beq_iff_eq, decide_eq_true_eq]
      exact ⟨⟨h1, h2⟩, by omega⟩
    · intro h j hj
      simp only [Bool.and_eq_true, beq_iff_eq, decide_eq_true_eq, not_and]
      intro h12 h3
      have := h j hj h12.1 h12.2
      omega

/-- C5 (witness): the amended staleness theorem at concrete inputs — no
completed job, the 24-hour boundary one millisecond before and exactly at
the threshold, and the cron decision for the long-running job. -/
theorem staleness_threshold_amended_witness :
    shouldAutoScrapeDb [] 1 0 = true ∧
    ((shouldAutoScrapeDb [longCompletedJob] 1 172799999 = true ↔
        hours24Ms ≤ (172799999 : Int) - longCompletedJob.completedAt.getD 0) ∧
     (shouldAutoScrapeDb [longCompletedJob] 1 172800000 = true ↔
        hours24Ms ≤ (172800000 : Int) - longCompletedJob.completedAt.getD 0)) ∧
    (cronNeedsScrape [longCompletedJob] 1 88200000 = true ↔
      ∀ j ∈ [longCompletedJob], j.shopId = 1 → j.status = "completed" →
        j.createdAt < 88200000 - hours23Ms) :=
  ⟨staleness_threshold_amended.1 [] 1 0 (by decide),
   ⟨staleness_threshold_amended.2.1 [longCompletedJob] 1 172799999 longCompletedJob (by decide),
    staleness_threshold_amended.2.1 [longCompletedJob] 1 172800000 longCompletedJob (by decide)⟩,
   staleness_threshold_amended.2.2 [longCompletedJob] 1 88200000⟩

/-- C9: the excerpt expression `description?.substring(0, 200) + '...' || ''`
(part_004:146, auto-scraper.js:173) evaluates to the string
"undefined..." when the description is absent, because `+` binds tighter
than `||` and `undefined + '...'` coerces to "undefined...", making the
`|| ''` default unreachable; with a description present the excerpt is the
200-character truncation plus the ellipsis, as the claim states.  The
search blob drops absent optional fields before joining (no throw), but
the keyword text is a template literal, so absent fields leak the token
"undefined" into the keywords. -/
theorem excerpt_coercion_bug_evidence :
    (scrapeProductRecord 1 0 rawNoDesc).excerpt = "undefined..." ∧
    (backgroundProductRecord 1 0 rawNoDesc).excerpt = "undefined..." ∧
    (scrapeProductRecord 1 0
        { rawNoDesc with description := some "Rich dark chocolate" }).excerpt
      = "Rich dark chocolate..." ∧
    (scrapeProductRecord 1 0
        { rawNoDesc with description := some longDescC9 }).excerpt
      = jsSubstring longDescC9 200 ++ "..." ∧
    (scrapeProductRecord 1 0 rawNoDesc).searchableContent = "choco" ∧
    (scrapeProductRecord 1 0 rawNoDesc).keywords = "choco, undefined" :=
  ⟨by decide, by decide, by decide, by decide, by decide, by decide⟩

/-- C6 (counterexample): the claim says a call rate-limited twice that
succeeds on the third attempt waits a total STRICTLY less than the hard
cap times the retry bound; when both provider hints are at or above the
5000 ms cap the two waits are clamped to exactly 5000 ms each, so the
total equals 5000 × 2 and is not strictly below it. -/
theorem model_call_retry_counterexample :
    createChatCompletionWithRetry callHinted 2 = (.ok 42, [5000, 5000]) ∧
    ¬ (5000 + 5000 < 5000 * 2) :=
  ⟨rfl, by decide⟩

/-- C6 (amended): only status-429 errors are retried and at most twice;
any other error propagates immediately with no wait; each wait is the
retry-after hint (or the linearly increasing 1000·(attempt+1) default)
clamped to 5000 ms; a call rate-limited twice that succeeds on the third
attempt returns the success and the total waiting time is AT MOST (not
strictly below) the 5000 ms cap times the retry bound 2. -/
theorem model_call_retry_amended :
    (∀ {α : Type} (call : Nat → Except ApiError α) (e : ApiError),
        call 0 = .error e → e.status ≠ 429 →
        createChatCompletionWithRetry call 2 = (.error e, [])) ∧
    (∀ {α : Type} (call : Nat → Except ApiError α),
        (createChatCompletionWithRetry call 2).2.length ≤ 2) ∧
    (∀ {α : Type} (call : Nat → Except ApiError α),
        ∀ w ∈ (createChatCompletionWithRetry call 2).2, w ≤ 5000) ∧
    (∀ (e : ApiError) (attempt : Nat), e.retryAfterMsHeader = none →
        e.retryAfterSecHeader = none →
        retryWaitMs e attempt = min (1000 * (attempt + 1)) 5000) ∧
    (∀ {α : Type} (call : Nat → Except ApiError α) (e0 e1 : ApiError) (r : α),
        call 0 = .error e0 → e0.status = 429 →
        call 1 = .error e1 → e1.status = 429 →
        call 2 = .ok r →
        createChatCompletionWithRetry call 2 =
          (.ok r, [retryWaitMs e0 0, retryWaitMs e1 1]) ∧
        retryWaitMs e0 0 + retryWaitMs e1 1 ≤ 5000 * 2) := by
  refine ⟨?_, ?_, ?_, ?_, ?_⟩
  · intro α call e hc h429
    exact retryAux_unfold_stop call 2 0 2 e hc (fun hcc => h429 hcc.1)
  · intro α call
    exact (retryAux_waits_bounded call 2 2 0).1
  · intro α call
    exact (retryAux_waits_bounded call 2 2 0).2
  · intro e attempt hms hsec
    have hz : (1000 * (attempt + 1) == 0) = false := by
      rw [beq_eq_false_iff_ne]
      omega
    simp [retryWaitMs, hms, hsec, jsOrNonzero, hz]
  · intro α call e0 e1 r h0 hs0 h1 hs1 h2
    have ha := retryAux_unfold_retry call 2 0 1 e0 h0 ⟨hs0, by omega⟩
    have hb := retryAux_unfold_retry call 2 1 0 e1 h1 ⟨hs1, by omega⟩
    have hok := retryAux_unfold_ok call 2 2 0 r h2
    constructor
    · show createChatCompletionWithRetryAux call 2 0 2 = _
      rw [ha, hb, hok]
    · have hw0 : retryWaitMs e0 0 ≤ 5000 := min_le_right _ _
      have hw1 : retryWaitMs e1 1 ≤ 5000 := min_le_right _ _
      omega

/-- C6 (witness): the amended retry theorem at concrete inputs — a
non-rate-limit error propagates unretried, and two hintless 429s followed
by a success produce the default waits 1000 ms and 2000 ms. -/
theorem model_call_retry_amended_witness :
    createChatCompletionWithRetry (fun _ => (.error serverError500 : Except ApiError Nat)) 2
      = (.error serverError500, []) ∧
    (createChatCompletionWithRetry callNoHint 2
        = (.ok 42, [retryWaitMs rateLimitNoHint 0, retryWaitMs rateLimitNoHint 1]) ∧
      retryWaitMs rateLimitNoHint 0 + retryWaitMs rateLimitNoHint 1 ≤ 5000 * 2) ∧
    retryWaitMs rateLimitNoHint 1 = min (1000 * (1 + 1)) 5000 :=
  ⟨model_call_retry_amended.1 (fun _ => .error serverError500) serverError500 rfl (by decide),
   model_call_retry_amended.2.2.2.2 callNoHint rateLimitNoHint rateLimitNoHint 42 rfl rfl rfl rfl rfl,
   model_call_retry_amended.2.2.2.1 rateLimitNoHint 1 rfl rfl⟩

/-- C7 (counterexample): when two requests race on the same new session
id, the claim says the loser's unique-create failure is followed by a
fallback read of the now-existing row so the turn proceeds; in the code
the create failure propagates to the turn-level catch, which returns the
fixed apology response — the turn does not proceed with any session. -/
theorem session_race_counterexample :
    getOrCreateChatSession [] [firstSessionRow] secondSessionRow
      = (.errorResponse genericTurnError, [firstSessionRow]) ∧
    (getOrCreateChatSession [] [firstSessionRow] secondSessionRow).1
      ≠ .proceeds firstSessionRow :=
  ⟨rfl, by decide⟩

/-- C7 (amended): without a race the session phase behaves as described
(an existing row is read, a missing row is created exactly once); under a
race on a new session id the first writer wins — the loser's create does
not overwrite the stored row — but the loser's unique-create error
propagates to the turn-level catch and the turn answers with the fixed
apology text instead of falling back to reading the existing row. -/
theorem session_race_amended :
    (∀ (sessions : List ChatSession) (row s : ChatSession),
        chatSessionFindUnique sessions row.sessionId = some s →
        getOrCreateChatSession sessions sessions row = (.proceeds s, sessions)) ∧
    (∀ (sessions : List ChatSession) (row : ChatSession),
        chatSessionFindUnique sessions row.sessionId = none →
        getOrCreateChatSession sessions sessions row
          = (.proceeds row, sessions ++ [row])) ∧
    (∀ (checkSessions createSessions : List ChatSession) (row s : ChatSession),
        chatSessionFindUnique checkSessions row.sessionId = none →
        s ∈ createSessions → s.sessionId = row.sessionId →
        getOrCreateChatSession checkSessions createSessions row
          = (.errorResponse genericTurnError, createSessions)) := by
  refine ⟨?_, ?_, ?_⟩
  · intro sessions row s h
    simp [getOrCreateChatSession, h]
  · intro sessions row h
    have hany : (sessions.any (fun s => s.sessionId == row.sessionId)) = false := by
      rw [List.any_eq_false]
      intro x hx
      simpa using List.find?_eq_none.mp h x hx
    simp [getOrCreateChatSession, h, chatSessionCreate, hany]
  · intro check create row s h hs hsid
    have hany : (create.any (fun t => t.sessionId == row.sessionId)) = true :=
      List.any_eq_true.mpr ⟨s, hs, by simp [hsid]⟩
    simp [getOrCreateChatSession, h, chatSessionCreate, hany]

/-- C7 (witness): the amended session theorem applied to the concrete
raced state — the table was empty at the check, the first writer's row is
present at the create, and the losing request receives the apology
response while the table keeps the first writer's row. -/
theorem session_race_amended_witness :
    getOrCreateChatSession [] [firstSessionRow] secondSessionRow
      = (.errorResponse genericTurnError, [firstSessionRow]) :=
  session_race_amended.2.2 [] [firstSessionRow] secondSessionRow firstSessionRow rfl
    (List.mem_singleton.mpr rfl) rfl

/-- C8 (counterexample): the claim says recordQuestion skips the write
when the normalized text is shorter than 3 characters; the public chat
route's inline analytics upsert (api.chat.jsx:326-345), which the claim
cites, performs no such check and writes a row for the 2-character
message "hi". -/
theorem record_question_counterexample :
    (jsTrim (jsToLower "hi")).length < 3 ∧
    publicChatRecordQuestion [] 1 "hi" 5
      = [{ shopId := 1, question := "hi", frequency := 1, lastAsked := 5 }] :=
  ⟨by decide, by decide⟩

/-- C8 (amended): the dashboard-side trackPopularQuestion normalizes
(lowercase, trim), skips normalized questions shorter than 3 characters,
and upserts by (tenant, normalized question) so that two sequential calls
with equivalent normalized text increment one shared counter to 2; the
public chat route's inline upsert uses the same normalization and key and
also increments one shared counter to 2, but performs no minimum-length
check. -/
theorem record_question_amended :
    (∀ (rows : List PopularQuestion) (s : Nat) (q : String) (now : Int),
        (jsTrim (jsToLower q)).length < 3 →
        trackPopularQuestion rows s q now = rows) ∧
    (∀ (rows : List PopularQuestion) (s : Nat) (q1 q2 : String) (n1 n2 : Int),
        jsTrim (jsToLower q1) = jsTrim (jsToLower q2) →
        3 ≤ (jsTrim (jsToLower q1)).length →
        (∀ r ∈ rows, ¬(r.shopId = s ∧ r.question = jsTrim (jsToLower q1))) →
        (trackPopularQuestion (trackPopularQuestion rows s q1 n1) s q2 n2).filter
            (fun r => r.shopId == s && r.question == jsTrim (jsToLower q1))
          = [{ shopId := s, question := jsTrim (jsToLower q1),
               frequency := 2, lastAsked := n2 }]) ∧
    (∀ (rows : List PopularQuestion) (s : Nat) (q1 q2 : String) (n1 n2 : Int),
        jsTrim (jsToLower q1) = jsTrim (jsToLower q2) →
        (∀ r ∈ rows, ¬(r.shopId = s ∧ r.question = jsTrim (jsToLower q1))) →
        (publicChatRecordQuestion (publicChatRecordQuestion rows s q1 n1) s q2 n2).filter
            (fun r => r.shopId == s && r.question == jsTrim (jsToLower q1))
          = [{ shopId := s, question := jsTrim (jsToLower q1),
               frequency := 2, lastAsked := n2 }]) := by
  refine ⟨?_, ?_, ?_⟩
  · intro rows s q now h
    simp only [trackPopularQuestion]
    rw [if_pos h]
  · intro rows s q1 q2 n1 n2 heq hlen hno
    have h1 : trackPopularQuestion rows s q1 n1
        = popularQuestionsUpsert rows s (jsTrim (jsToLower q1)) n1 := by
      simp only [trackPopularQuestion]
      rw [if_neg (by omega)]
    have h2 : ∀ rows2 : List PopularQuestion, trackPopularQuestion rows2 s q2 n2
        = popularQuestionsUpsert rows2 s (jsTrim (jsToLower q1)) n2 := by
      intro rows2
      simp only [trackPopularQuestion, ← heq]
      rw [if_neg (by omega)]
    rw [h1, h2]
    exact upsert_twice_filter rows s (jsTrim (jsToLower q1)) n1 n2 hno
  · intro rows s q1 q2 n1 n2 heq hno
    simp only [publicChatRecordQuestion, ← heq]
    exact upsert_twice_filter rows s (jsTrim (jsToLower q1)) n1 n2 hno

/-- C8 (witness): the amended question-recording theorem at concrete
inputs — a 1-character question is skipped, and " Hello" followed by
"hello" yields a single row with frequency 2. -/
theorem record_question_amended_witness :
    trackPopularQuestion [] 1 "A " 7 = [] ∧
    (trackPopularQuestion (trackPopularQuestion [] 1 " Hello" 5) 1 "hello" 9).filter
        (fun r => r.shopId == 1 && r.question == jsTrim (jsToLower " Hello"))
      = [{ shopId := 1, question := jsTrim (jsToLower " Hello"),
           frequency := 2, lastAsked := 9 }] :=
  ⟨record_question_amended.1 [] 1 "A " 7 (by decide),
   record_question_amended.2.1 [] 1 " Hello" "hello" 5 9 (by decide) (by decide) (by simp)⟩

theorem filter_idem {β : Type} (p : β → Bool) (l : List β) :
    (l.filter p).filter p = l.filter p := by
  induction l with
  | nil => rfl
  | cons a t ih =>
    rw [List.filter_cons]
    by_cases h : p a = true
    · rw [if_pos h, List.filter_cons, if_pos h, ih]
    · rw [if_neg h, ih]

/-- C3 (counterexample): a successful full scrape is a sync whose store
phase deletes EVERY content row of the tenant
(`deleteMany({ where: { shopId } })`, part_004:432-434) — here a `page`
row of tenant 1 is deleted by a sync that fetched only one product, even
though the `page` category was not part of the sync, contradicting the
claim that rows of other categories are left unchanged. -/
theorem category_frame_counterexample :
    pageRowC3 ∈ ({ jobs := [], content := [pageRowC3] } : Db).content ∧
    ({ id := 7, shopId := 1, jobType := "full_scrape", status := "completed",
       progress := 100, itemsFound := 1, itemsProcessed := 1, errorMessage := none,
       startedAt := some 9, completedAt := some 9, createdAt := 9 } : ScrapingJob)
      ∈ (performFullScrapeRun { jobs := [], content := [pageRowC3] } 1 7
          (.ok [rawNoDesc]) (.ok []) (.ok []) 9).jobs ∧
    pageRowC3 ∉ (performFullScrapeRun { jobs := [], content := [pageRowC3] } 1 7
        (.ok [rawNoDesc]) (.ok []) (.ok []) 9).content :=
  ⟨by decide, by decide, by decide⟩

/-- C3 (amended): the background product sync replaces only the
(tenant, product) rows — every row that is not a product row of that
tenant survives unchanged — whereas the full scrape deletes ALL rows of
the tenant (every category) and then inserts the combined fetched
records. -/
theorem category_frame_amended :
    (∀ (table : List ShopContent) (shopId : Nat) (raws : List RawProduct) (now : Int),
        (backgroundStorePhase table shopId raws now).filter
            (fun r => !(r.shopId == shopId && r.contentType == "product"))
          = table.filter (fun r => !(r.shopId == shopId && r.contentType == "product"))) ∧
    (∀ (table : List ShopContent) (shopId : Nat) (rows : List ShopContent),
        ∃ inserted, fullScrapeStorePhase table shopId rows
            = table.filter (fun r => !(r.shopId == shopId)) ++ inserted ∧
          ∀ r ∈ inserted, r ∈ rows) := by
  constructor
  · intro table s raws now
    simp only [backgroundStorePhase]
    obtain ⟨extra, he, hs⟩ := createManySkipDup_append
      ((raws.filter (fun p => p.variantsAvailable.any (fun b => b))).map
        (backgroundProductRecord s now))
      (table.filter (fun r => !(r.shopId == s && r.contentType == "product")))
    rw [he, List.filter_append]
    have hex : ∀ x ∈ extra, (!(x.shopId == s && x.contentType == "product")) = false := by
      intro x hx
      obtain ⟨p, _, rfl⟩ := List.mem_map.mp (hs x hx)
      simp [backgroundProductRecord]
    rw [filter_eq_nil_of_false _ extra hex, List.append_nil]
    exact filter_idem _ table
  · intro table s rows
    exact createManySkipDup_append rows (table.filter (fun r => !(r.shopId == s)))

/-- C4 (counterexample): the claim orders the per-token field weights
title > keyword field > search blob > body and says ties are broken by
recency; in the code the keyword-field weight (25) EXCEEDS the title
weight (20), and ties keep the candidates' input order (stable sort), not
recency order — the older "Snack Bar" stays ahead of the newer one with
an equal score. -/
theorem intelligent_search_counterexample :
    ¬ (productScore "zebra lion" keywordsOnlyProd
        < productScore "zebra lion" titleOnlyProd) ∧
    productScore "zebra lion" titleOnlyProd = 20 ∧
    productScore "zebra lion" keywordsOnlyProd = 25 ∧
    (intelligentProductSearch [oldSnackBar, newSnackBar] "bar"
        = [oldSnackBar, newSnackBar] ∧
      productScore "bar" oldSnackBar = productScore "bar" newSnackBar ∧
      oldSnackBar.publishedAt < newSnackBar.publishedAt) :=
  ⟨by decide, by decide, by decide, by decide, by decide, by decide⟩

/-- C4 (amended): the scoring search corrects the misspelled query
("chocolat diet" becomes "chocolate diet"), ranks "Diet Chocolate Bar"
(score 330) and excludes "Vanilla Bar" (score 0); every returned record
has a strictly positive score; results are sorted descending by score
with ties keeping the candidates' input order; and the per-token field
weights are ordered keyword field (25) > title (20) > search blob (15) >
body (10). -/
theorem intelligent_search_amended :
    (correctedQueryOf "chocolat diet" = "chocolate diet" ∧
     intelligentProductSearch [dietChocBar, vanillaBar] "chocolat diet" = [dietChocBar] ∧
     productScore "chocolat diet" dietChocBar = 330 ∧
     productScore "chocolat diet" vanillaBar = 0) ∧
    (∀ (products : List ShopContent) (query : String),
        ∀ r ∈ intelligentProductSearch products query, 0 < productScore query r) ∧
    (∀ (products : List ShopContent) (query : String),
        (intelligentProductSearch products query).Pairwise
          (fun a b => productScore query b ≤ productScore query a)) ∧
    (productScore "zebra lion" keywordsOnlyProd = 25 ∧
     productScore "zebra lion" titleOnlyProd = 20 ∧
     productScore "zebra lion" searchableOnlyProd = 15 ∧
     productScore "zebra lion" contentOnlyProd = 10) := by
  refine ⟨⟨by decide, by decide, by decide, by decide⟩, ?_, ?_,
    ⟨by decide, by decide, by decide, by decide⟩⟩
  · intro products query r hr
    simp only [intelligentProductSearch, List.mem_map] at hr
    obtain ⟨pair, hpair, rfl⟩ := hr
    have h1 := mem_sortByScoreDesc _ pair hpair
    rw [List.mem_filter] at h1
    obtain ⟨hmem, hpos⟩ := h1
    obtain ⟨p, _, rfl⟩ := List.mem_map.mp hmem
    simpa using hpos
  · intro products query
    simp only [intelligentProductSearch]
    rw [List.pairwise_map]
    have hscore : ∀ x ∈ sortByScoreDesc
        ((products.map (fun product => (product, productScore query product))).filter
          (fun item => item.2 > 0)),
        x.2 = productScore query x.1 := by
      intro x hx
      have h1 := mem_sortByScoreDesc _ x hx
      rw [List.mem_filter] at h1
      obtain ⟨p, _, rfl⟩ := List.mem_map.mp h1.1
      rfl
    exact (pairwise_sortByScoreDesc _).imp_of_mem
      (fun ha hb hr => by rw [← hscore _ ha, ← hscore _ hb]; exact hr)

/-- C4 (witness): the positive-score guarantee applied to the concrete
example — "Diet Chocolate Bar" is returned for "chocolat diet" and its
score is strictly positive. -/
theorem intelligent_search_amended_witness :
    0 < productScore "chocolat diet" dietChocBar :=
  intelligent_search_amended.2.1 [dietChocBar, vanillaBar] "chocolat diet"
    dietChocBar (by decide)

theorem fullScrape_hall (dbjobs : List ScrapingJob) (s id : Nat) (now : Int)
    (hfresh : ∀ a ∈ dbjobs, a.id ≠ id) :
    ∀ a ∈ dbjobs ++ [newRunningJob id s "full_scrape" now], a.id = id →
      a.shopId = s ∧ a.status = "running" := by
  intro a ha hid
  rcases List.mem_append.mp ha with h1 | h1
  · exact absurd hid (hfresh a h1)
  · rw [List.mem_singleton.mp h1]
    exact ⟨rfl, rfl⟩

/-- C2: after a job row is created with state `running`, a thrown pipeline
error always reaches the job row as `failed` with the error text and a
completion timestamp, and no outcome leaves the row `running`: for the
background pipeline this holds for the dispatched-and-caught run
(auto-scraper.js:62-77), and for the full scrape for its outer catch
(part_004:474-492), the latter assuming the created job id is fresh. -/
theorem pipeline_error_reaches_failed :
    (∀ (db : Db) (shopId jobId : Nat) (e : String) (now : Int),
        ∀ j ∈ (triggerAutoScrapeRun db shopId jobId (.error e) now).jobs,
          j.id = jobId →
          j.status = "failed" ∧ j.errorMessage = some e ∧ j.completedAt = some now) ∧
    (∀ (db : Db) (shopId jobId : Nat) (fetch : Except String (List RawProduct)) (now : Int),
        ∀ j ∈ (triggerAutoScrapeRun db shopId jobId fetch now).jobs,
          j.id = jobId → j.status = "completed" ∨ j.status = "failed") ∧
    (∀ (db : Db) (shopId jobId : Nat) (e : String)
        (af : Except String (List RawArticle)) (cf : Except String (List RawCollection))
        (now : Int),
        (∀ a ∈ db.jobs, a.id ≠ jobId) →
        ∀ j ∈ (performFullScrapeRun db shopId jobId (.error e) af cf now).jobs,
          j.id = jobId →
          j.status = "failed" ∧ j.errorMessage = some e ∧ j.completedAt = some now) ∧
    (∀ (db : Db) (shopId jobId : Nat) (pf : Except String (List RawProduct))
        (af : Except String (List RawArticle)) (cf : Except String (List RawCollection))
        (now : Int),
        (∀ a ∈ db.jobs, a.id ≠ jobId) →
        ∀ j ∈ (performFullScrapeRun db shopId jobId pf af cf now).jobs,
          j.id = jobId → j.status = "completed" ∨ j.status = "failed") := by
  refine ⟨?_, ?_, ?_, ?_⟩
  · intro db s id e now j hj hid
    exact mem_failJobRow_id _ _ _ _ j hj hid
  · intro db s id fetch now j hj hid
    cases fetch with
    | error e => exact .inr (mem_failJobRow_id _ _ _ _ j hj hid).1
    | ok raws => exact .inl (mem_completeJobRow_id _ _ _ _ _ j hj hid).1
  · intro db s id e af cf now hfresh j hj hid
    have hall1 := updateJobProgress_preserves_target _ id 10 s
      (fullScrape_hall db.jobs s id now hfresh)
    exact mem_failRunningJobsOfShop_target _ s e now id hall1 j hj hid
  · intro db s id pf af cf now hfresh j hj hid
    have hall1 := updateJobProgress_preserves_target _ id 10 s
      (fullScrape_hall db.jobs s id now hfresh)
    have hall2 := updateJobProgress_preserves_target _ id 50 s hall1
    have hall3 := updateJobProgress_preserves_target _ id 80 s hall2
    cases pf with
    | error e => exact .inr (mem_failRunningJobsOfShop_target _ s e now id hall1 j hj hid).1
    | ok rawProducts =>
      cases af with
      | ok rawArticles =>
        cases cf with
        | ok rawCollections => exact .inl (mem_completeJobRow_id _ _ _ _ _ j hj hid).1
        | error ec => exact .inr (mem_failRunningJobsOfShop_target _ s ec now id hall3 j hj hid).1
      | error ea =>
        by_cases hinc : jsIncludes ea "Access denied for blogs field" = true
        · cases cf with
          | ok rawCollections =>
            simp only [performFullScrapeRun, performFullScrape, hinc, if_true] at hj
            exact .inl (mem_completeJobRow_id _ _ _ _ _ j hj hid).1
          | error ec =>
            simp only [performFullScrapeRun, performFullScrape, hinc, if_true] at hj
            exact .inr (mem_failRunningJobsOfShop_target _ s ec now id hall3 j hj hid).1
        · have hincf : jsIncludes ea "Access denied for blogs field" = false :=
            Bool.eq_false_iff.mpr hinc
          simp only [performFullScrapeRun, performFullScrape, hincf,
            Bool.false_eq_true, if_false] at hj
          exact .inr (mem_failRunningJobsOfShop_target _ s ea now id hall2 j hj hid).1

/-- C2 (witness): the error-mirroring theorem at concrete inputs — a
background run whose fetch throws "boom" marks its job failed with that
text and completion time 9, and a full scrape whose product fetch throws
"net" does the same for its freshly created job. -/
theorem pipeline_error_reaches_failed_witness :
    (failedBgJobRow.status = "failed" ∧ failedBgJobRow.errorMessage = some "boom" ∧
      failedBgJobRow.completedAt = some 9) ∧
    (failedFullJobRow.status = "failed" ∧ failedFullJobRow.errorMessage = some "net" ∧
      failedFullJobRow.completedAt = some 9) :=
  ⟨pipeline_error_reaches_failed.1 { jobs := [newRunningJob 5 1 "auto_24h" 0], content := [] }
      1 5 "boom" 9 failedBgJobRow (by decide) rfl,
   pipeline_error_reaches_failed.2.2.1 { jobs := [], content := [] } 1 7 "net"
      (.ok []) (.ok []) 9 (by simp) failedFullJobRow (by decide) rfl⟩

/-- C1 (counterexample): the single-flight guard is a check-then-act race;
in the interleaved semantics two start requests for tenant 1 can both
pass the running-job check before either inserts, reaching an observable
state with two `running` jobs for the tenant — the invariant "at most one
running job per tenant at every observable instant" does not hold on the
code. -/
theorem single_flight_counterexample :
    ¬ (∀ σ : SyncState, SyncReachable σ → singleFlight σ.jobs) := by
  intro hclaim
  have s1 : SyncStep ⟨[], 0, []⟩ ⟨[], 0, [1]⟩ :=
    SyncStep.checkPass ⟨[], 0, []⟩ 1 (by decide)
  have s2 : SyncStep ⟨[], 0, [1]⟩ ⟨[], 0, [1, 1]⟩ :=
    SyncStep.checkPass ⟨[], 0, [1]⟩ 1 (by decide)
  have s3 : SyncStep ⟨[], 0, [1, 1]⟩ ⟨[newRunningJob 0 1 "auto_24h" 0], 1, [1]⟩ :=
    SyncStep.insertJob ⟨[], 0, [1, 1]⟩ 1 "auto_24h" 0 (by decide)
  have s4 : SyncStep ⟨[newRunningJob 0 1 "auto_24h" 0], 1, [1]⟩
      ⟨[newRunningJob 0 1 "auto_24h" 0, newRunningJob 1 1 "auto_24h" 0], 2, []⟩ :=
    SyncStep.insertJob ⟨[newRunningJob 0 1 "auto_24h" 0], 1, [1]⟩ 1 "auto_24h" 0 (by decide)
  have hreach : SyncReachable
      ⟨[newRunningJob 0 1 "auto_24h" 0, newRunningJob 1 1 "auto_24h" 0], 2, []⟩ :=
    Relation.ReflTransGen.tail (Relation.ReflTransGen.tail
      (Relation.ReflTransGen.tail (Relation.ReflTransGen.tail
        Relation.ReflTransGen.refl s1) s2) s3) s4
  have hinv := hclaim _ hreach 1
  exact absurd hinv (by decide)

/-- C1 (amended): starting a sync first checks for a running job of the
tenant and refuses — returning false and leaving the table unchanged —
whenever one exists; and PROVIDED each accepted start executes its check
and its insert back to back (no interleaving between them), every
reachable state has at most one running job per tenant.  With
interleaving between check and insert the invariant can be violated (see
the counterexample). -/
theorem single_flight_guard_amended :
    (∀ (jobs : List ScrapingJob) (nextId shopId : Nat) (jobType : String) (now : Int),
        hasRunningJob jobs shopId = true →
        triggerAutoScrapeGuard jobs nextId shopId jobType now = (false, jobs)) ∧
    (∀ σ : SyncState, AtomicSyncReachable σ → singleFlight σ.jobs) := by
  constructor
  · intro jobs nextId shopId jobType now h
    simp [triggerAutoScrapeGuard, h]
  · exact atomicReachable_singleFlight

/-- C1 (witness): the amended guard theorem at concrete inputs — with a
running job for tenant 1 the guarded start refuses and leaves the table
unchanged, and the initial state satisfies the single-flight invariant. -/
theorem single_flight_guard_amended_witness :
    triggerAutoScrapeGuard [newRunningJob 0 1 "auto_24h" 0] 1 1 "auto_24h" 5
      = (false, [newRunningJob 0 1 "auto_24h" 0]) ∧
    singleFlight SyncState.init.jobs :=
  ⟨single_flight_guard_amended.1 [newRunningJob 0 1 "auto_24h" 0] 1 1 "auto_24h" 5 (by decide),
   single_flight_guard_amended.2 SyncState.init Relation.ReflTransGen.refl⟩
